import Mathlib

/-!
Shallow embedding of `src/contacts/views/company.py` (django-contacts).

The five view handlers (`list`, `detail`, `create`, `update`, `delete`)
are translated directly from the Python source.  The persistent store,
the request object and the Django framework pieces the views call into
(paginator, permission check, POST dictionary access) are embedded as
explicit data.  Parts of the repository that the views import but that
are absent from `src/` (`contacts/forms.py`, `contacts/models.py`,
`urls.py`) are modelled from the specification and marked as such.
-/

namespace Contacts

/-- A stored company row.  Modelled from the spec: `contacts/models.py`
is imported by the views but absent from `src/`; the spec describes a
Company with a name, owning sub-records, identified by its primary key. -/
structure Company where
  pk : Nat
  name : String
deriving Repr, DecidableEq

/-- A generic sub-record (phone number, email address, web site or street
address).  Modelled from the spec: the sub-record models live in the
absent `contacts/models.py`; the spec describes each as owned by exactly
one primary record via a polymorphic owner reference. -/
structure SubRecord where
  owner : Nat
  value : String
deriving Repr, DecidableEq

/-- The persistent store visible to the company views: the company table,
the four generic sub-record tables, and the auto-increment counter for
fresh primary keys. -/
structure Store where
  nextPk : Nat
  companies : List Company
  phones : List SubRecord
  emails : List SubRecord
  websites : List SubRecord
  addresses : List SubRecord
deriving Repr, DecidableEq

/-- `Company.objects.get(pk__iexact=pk)`: lookup of a company by primary
key (case-insensitivity is vacuous on a numeric key). `none` embeds the
raised `Company.DoesNotExist`. -/
def findCompany (s : Store) (pk : Nat) : Option Company :=
  s.companies.find? (fun c => c.pk == pk)

/-- HTTP request method, as tested by `request.method == 'POST'`. -/
inductive Method where
  | GET
  | POST
deriving Repr, DecidableEq

/-- The parts of the Django request the company views read: the method,
the POST dictionary (`request.POST`) and the requesting user's
permissions (`request.user.has_perm`). -/
structure Request where
  method : Method
  post : List (String × String)
  perms : List String
deriving Repr, DecidableEq

/-- `request.user.has_perm(p)`. -/
def hasPerm (req : Request) (p : String) : Bool :=
  req.perms.contains p

/-- `request.POST.get(k)` / `request.POST[k]` lookup; `none` embeds the
key-lookup error (`MultiValueDictKeyError`) raised by direct indexing. -/
def postGet (post : List (String × String)) (k : String) : Option String :=
  (post.find? (fun p => p.1 == k)).map (fun p => p.2)

/-- Template context handed to `render_to_response` by the list view
(the `kwvars` dictionary of `list`, lines 25-41). -/
structure ListCtx where
  object_list : List Company
  has_next : Bool
  has_previous : Bool
  has_other_pages : Bool
  start_index : Nat
  end_index : Nat
  previous_page_number : Option Nat
  next_page_number : Option Nat
deriving Repr, DecidableEq

/-- Template contexts handed to `render_to_response` by the other
company views (only the data the claims inspect is carried). -/
inductive TemplateCtx where
  | companyList (ctx : ListCtx)
  | companyDetail (pk : Nat)
  | createForm
  | updateForms (pk : Nat)
  | deleteConfirm (pk : Nat)
deriving Repr, DecidableEq

/-- A returned HTTP response. `serverErrorClass` embeds line 81 of
`create`, which returns the class object `HttpResponseServerError`
itself instead of an invoked response instance. -/
inductive Response where
  | render (template : String) (ctx : TemplateCtx)
  | redirect (url : String)
  | forbidden
  | serverErrorClass
deriving Repr, DecidableEq

/-- How a view invocation ends: a returned response, a raised `Http404`,
or a raised key-lookup error from direct POST-dictionary indexing. -/
inductive Outcome where
  | ok (r : Response)
  | http404
  | keyError (key : String)
deriving Repr, DecidableEq

/-- Result of running a view: the store after the request, the success
notifications emitted via `messages.success`, and the outcome. -/
structure ViewResult where
  store : Store
  messages : List String
  outcome : Outcome
deriving Repr, DecidableEq

/-- Modelled from the spec: `Company.get_absolute_url` lives in the
absent `contacts/models.py`; the spec calls it the record's canonical
URL, determined by the record (its primary key). -/
def get_absolute_url (c : Company) : String :=
  "/companies/" ++ toString c.pk

/-- Modelled from the spec: `reverse('contacts_company_list')` resolves
through the absent URL configuration to the company list view's URL. -/
def company_list_url : String :=
  "/companies/"

/-! ### Django paginator (framework semantics)

`Paginator(company_list, 20)` with the default `orphans=0`,
`allow_empty_first_page=True`.  The embedding follows Django's
documented behaviour: `validate_number` coerces the page argument to an
integer (failure raises `PageNotAnInteger`/`InvalidPage`, embedded as a
`none` argument) and raises `EmptyPage` outside `1..num_pages`;
`Page.next_page_number`/`previous_page_number` validate the neighbouring
number the same way. -/

/-- Pagination size used by the list view (`Paginator(company_list, 20)`). -/
def per_page : Nat := 20

/-- `Paginator.num_pages` for `count` records: `ceil(max(1, count) / 20)`. -/
def num_pages (count : Nat) : Nat :=
  (max 1 count + per_page - 1) / per_page

/-- `Paginator.validate_number` on the view's page argument.  A `none`
argument embeds a non-integer page string; out-of-range numbers are
rejected (`EmptyPage`).  Returns the validated page number. -/
def validate_number (count : Nat) (page : Option Int) : Option Nat :=
  match page with
  | none => none
  | some n => if 1 ≤ n ∧ n ≤ (num_pages count : Int) then some n.toNat else none

/-- `Page.object_list`: the slice `[(n-1)*20 : n*20]` of the full list. -/
def pageObjects (l : List Company) (n : Nat) : List Company :=
  (l.drop ((n - 1) * per_page)).take per_page

/-- `Page.has_next`: `n < num_pages`. -/
def page_has_next (count n : Nat) : Bool :=
  decide (n < num_pages count)

/-- `Page.has_previous`: `n > 1`. -/
def page_has_previous (n : Nat) : Bool :=
  decide (1 < n)

/-- `Page.has_other_pages`: `has_previous or has_next`. -/
def page_has_other_pages (count n : Nat) : Bool :=
  page_has_previous n || page_has_next count n

/-- `Page.start_index`: 0 when there are no records, else `(n-1)*20 + 1`. -/
def page_start_index (count n : Nat) : Nat :=
  if count = 0 then 0 else (n - 1) * per_page + 1

/-- `Page.end_index`: `count` on the last page, else `n*20`. -/
def page_end_index (count n : Nat) : Nat :=
  if n = num_pages count then count else n * per_page

/-- `Page.next_page_number`, validated; the view maps the raised
`EmptyPage` to `None`, embedded here as `none`. -/
def next_page_number (count n : Nat) : Option Nat :=
  if n + 1 ≤ num_pages count then some (n + 1) else none

/-- `Page.previous_page_number`, validated; the view maps the raised
`EmptyPage` to `None`, embedded here as `none`. -/
def previous_page_number (count n : Nat) : Option Nat :=
  if 1 ≤ n - 1 ∧ n - 1 ≤ num_pages count then some (n - 1) else none

/-- The `kwvars` context built by the list view for page `n` of `l`. -/
def buildListCtx (l : List Company) (n : Nat) : ListCtx :=
  { object_list := pageObjects l n
    has_next := page_has_next l.length n
    has_previous := page_has_previous n
    has_other_pages := page_has_other_pages l.length n
    start_index := page_start_index l.length n
    end_index := page_end_index l.length n
    previous_page_number := previous_page_number l.length n
    next_page_number := next_page_number l.length n }

/-- Lines 17-41 of `list`: paginate at 20 per page, fall back to the
last page when `paginator.page(page)` raises `EmptyPage`/`InvalidPage`,
then build the template context. -/
def list_ctx (l : List Company) (page : Option Int) : ListCtx :=
  let n := match validate_number l.length page with
           | some n => n
           | none => num_pages l.length
  buildListCtx l n

/-- The `list` view (lines 11-43): never mutates the store, always
renders the list template with the paginated context. -/
def list (s : Store) (page : Option Int) (template : String) : ViewResult :=
  ⟨s, [], .ok (.render template (.companyList (list_ctx s.companies page)))⟩

/-- The `detail` view (lines 45-60): look the company up by primary key
(raising `Http404` when absent) and render it.  The `slug` argument is
never read. -/
def detail (s : Store) (pk : Nat) (slug : Option String) (template : String) :
    ViewResult :=
  match findCompany s pk with
  | none => ⟨s, [], .http404⟩
  | some company => ⟨s, [], .ok (.render template (.companyDetail company.pk))⟩

/-! ### Form layer

Modelled from the spec: `contacts/forms.py` is imported by the views but
absent from `src/`.  The spec describes a company form validating and
saving the main record and one formset per sub-record type bound to the
same instance.  Validity of the company form is modelled as a submitted
non-empty `name`; validity of each bound formset as presence of its
submitted data; saving writes the cleaned data to the store. -/

/-- Modelled from the spec: `CompanyCreateForm`/`CompanyUpdateForm`
cleaning — valid exactly when a non-empty `name` is submitted, and the
cleaned name is then saved. -/
def companyFormClean (post : List (String × String)) : Option String :=
  match postGet post "name" with
  | some v => if v = "" then none else some v
  | none => none

/-- Modelled from the spec: a bound sub-record formset is valid exactly
when its submitted data is present in the POST dictionary. -/
def formsetClean (post : List (String × String)) (key : String) : Option String :=
  postGet post key

/-- Replace the sub-records owned by `pk` with the cleaned submission. -/
def subRecordSave (recs : List SubRecord) (pk : Nat) (v : String) : List SubRecord :=
  recs.filter (fun r => r.owner != pk) ++ [⟨pk, v⟩]

/-- `form.save()` in `update`: write the cleaned name to the company row. -/
def companyFormSave (s : Store) (pk : Nat) (nm : String) : Store :=
  { s with companies :=
      s.companies.map (fun c => if c.pk == pk then { c with name := nm } else c) }

/-- `phone_formset.save()`. -/
def phoneFormsetSave (s : Store) (pk : Nat) (v : String) : Store :=
  { s with phones := subRecordSave s.phones pk v }

/-- `email_formset.save()`. -/
def emailFormsetSave (s : Store) (pk : Nat) (v : String) : Store :=
  { s with emails := subRecordSave s.emails pk v }

/-- `website_formset.save()`. -/
def websiteFormsetSave (s : Store) (pk : Nat) (v : String) : Store :=
  { s with websites := subRecordSave s.websites pk v }

/-- `address_formset.save()`. -/
def addressFormsetSave (s : Store) (pk : Nat) (v : String) : Store :=
  { s with addresses := subRecordSave s.addresses pk v }

/-- The `create` view (lines 62-87): permission check, then on POST
validate the creation form; on success save the new company (fresh
primary key), notify and redirect to its canonical URL; on failure
return the `HttpResponseServerError` class itself (line 81); on GET
render the empty form. -/
def create (s : Store) (req : Request) (template : String) : ViewResult :=
  if hasPerm req "contacts.add_company" then
    match req.method with
    | .POST =>
      match companyFormClean req.post with
      | some nm =>
        let c : Company := ⟨s.nextPk, nm⟩
        ⟨{ s with nextPk := s.nextPk + 1, companies := s.companies ++ [c] },
         ["Company added"], .ok (.redirect (get_absolute_url c))⟩
      | none => ⟨s, [], .ok .serverErrorClass⟩
    | .GET => ⟨s, [], .ok (.render template .createForm)⟩
  else ⟨s, [], .ok .forbidden⟩

/-- The `update` view (lines 89-143): permission check, 404 on a missing
primary key, then on POST bind the main form and the four formsets; only
when all five validate save all five in sequence, notify and redirect to
the record's canonical URL; otherwise fall through and re-render with
the bound forms.  On GET render the unbound forms. -/
def update (s : Store) (req : Request) (pk : Nat) (slug : Option String)
    (template : String) : ViewResult :=
  if hasPerm req "contacts.change_company" then
    match findCompany s pk with
    | none => ⟨s, [], .http404⟩
    | some company =>
      match req.method with
      | .POST =>
        match companyFormClean req.post, formsetClean req.post "phone",
              formsetClean req.post "email", formsetClean req.post "website",
              formsetClean req.post "address" with
        | some nm, some ph, some em, some ws, some ad =>
          let s5 := addressFormsetSave
                      (websiteFormsetSave
                        (emailFormsetSave
                          (phoneFormsetSave (companyFormSave s pk nm) pk ph)
                          pk em)
                        pk ws)
                      pk ad
          ⟨s5, ["Company updated"], .ok (.redirect (get_absolute_url company))⟩
        | _, _, _, _, _ =>
          ⟨s, [], .ok (.render template (.updateForms company.pk))⟩
      | .GET => ⟨s, [], .ok (.render template (.updateForms company.pk))⟩
  else ⟨s, [], .ok .forbidden⟩

/-- `company.delete()`: remove the company row; the framework-default
cascade removes its sub-records (spec §3). -/
def deleteCompany (s : Store) (pk : Nat) : Store :=
  { s with companies := s.companies.filter (fun c => c.pk != pk)
           phones := s.phones.filter (fun r => r.owner != pk)
           emails := s.emails.filter (fun r => r.owner != pk)
           websites := s.websites.filter (fun r => r.owner != pk)
           addresses := s.addresses.filter (fun r => r.owner != pk) }

/-- The `delete` view (lines 145-175): permission check, 404 on a
missing primary key; on POST index `new_data['delete_company']` directly
(raising a key-lookup error when absent); delete, notify and redirect to
the list when it equals `"Yes"`, else redirect to the record's detail
URL.  On GET render the confirmation page. -/
def delete (s : Store) (req : Request) (pk : Nat) (slug : Option String)
    (template : String) : ViewResult :=
  if hasPerm req "contacts.delete_company" then
    match findCompany s pk with
    | none => ⟨s, [], .http404⟩
    | some company =>
      match req.method with
      | .POST =>
        match postGet req.post "delete_company" with
        | none => ⟨s, [], .keyError "delete_company"⟩
        | some v =>
          if v = "Yes" then
            ⟨deleteCompany s pk, ["Company deleted"], .ok (.redirect company_list_url)⟩
          else
            ⟨s, [], .ok (.redirect (get_absolute_url company))⟩
      | .GET => ⟨s, [], .ok (.render template (.deleteConfirm company.pk))⟩
  else ⟨s, [], .ok .forbidden⟩

end Contacts

/-! ### Concrete fixtures used by witness theorems -/

/-- A concrete store: one company (pk 1) with one sub-record of each kind. -/
def s0 : Contacts.Store :=
  ⟨2, [⟨1, "Acme"⟩], [⟨1, "555"⟩], [⟨1, "a@b.example"⟩],
   [⟨1, "acme.example"⟩], [⟨1, "1 Main St"⟩]⟩

/-- A POST body carrying the main form and all four formsets. -/
def postAll : List (String × String) :=
  [("name", "Acme Inc"), ("phone", "556"), ("email", "c@d.example"),
   ("website", "acme2.example"), ("address", "2 Main St")]

/-- A POST body missing the address formset data. -/
def postNoAddr : List (String × String) :=
  [("name", "Acme Inc"), ("phone", "556"), ("email", "c@d.example"),
   ("website", "acme2.example")]

/-- Twenty-five concrete companies: two pages at 20 per page. -/
def c25 : List Contacts.Company :=
  (List.range 25).map (fun i => ⟨i, "co"⟩)

/-- A request holding every company permission. -/
def reqAllPerms (m : Contacts.Method) (post : List (String × String)) :
    Contacts.Request :=
  ⟨m, post, ["contacts.add_company", "contacts.change_company",
             "contacts.delete_company"]⟩

/-- A request holding no permission at all. -/
def reqNoPerms : Contacts.Request := ⟨.POST, postAll, []⟩

/-! ### Helper lemmas -/

theorem num_pages_pos (c : Nat) : 1 ≤ Contacts.num_pages c := by
  unfold Contacts.num_pages Contacts.per_page
  rw [Nat.one_le_div_iff (by norm_num)]
  have := Nat.le_max_left 1 c
  omega

theorem count_le_mul_num_pages (c : Nat) : c ≤ 20 * Contacts.num_pages c := by
  unfold Contacts.num_pages Contacts.per_page
  have hdm := Nat.div_add_mod (max 1 c + 19) 20
  have hlt : (max 1 c + 19) % 20 < 20 := Nat.mod_lt _ (by norm_num)
  have hmax := Nat.le_max_right 1 c
  omega

theorem validate_number_valid (c n : Nat) (h1 : 1 ≤ n)
    (h2 : n ≤ Contacts.num_pages c) :
    Contacts.validate_number c (some (n : Int)) = some n := by
  have hcond : 1 ≤ (n : Int) ∧ (n : Int) ≤ (Contacts.num_pages c : Int) :=
    ⟨by exact_mod_cast h1, by exact_mod_cast h2⟩
  simp [Contacts.validate_number, hcond]

theorem list_ctx_valid_eq (l : List Contacts.Company) (n : Nat) (h1 : 1 ≤ n)
    (h2 : n ≤ Contacts.num_pages l.length) :
    Contacts.list_ctx l (some (n : Int)) = Contacts.buildListCtx l n := by
  unfold Contacts.list_ctx
  rw [validate_number_valid l.length n h1 h2]

theorem findCompany_deleteCompany (s : Contacts.Store) (pk : Nat) :
    Contacts.findCompany (Contacts.deleteCompany s pk) pk = none := by
  unfold Contacts.findCompany Contacts.deleteCompany
  rw [List.find?_eq_none]
  intro c hc
  simp only [List.mem_filter, bne_iff_ne, ne_eq] at hc
  simp [hc.2]

theorem findCompany_mem (s : Contacts.Store) (pk : Nat) (c : Contacts.Company)
    (h : Contacts.findCompany s pk = some c) : Contacts.findCompany s pk ≠ none := by
  rw [h]
  exact Option.some_ne_none c

/-! ### Claim theorems -/

/-- C9: the company detail view never reads its slug argument: for every
store, primary key and template, any two slug values (including `none`)
produce the same result. -/
theorem C9_detail_ignores_slug (s : Contacts.Store) (pk : Nat)
    (slug1 slug2 : Option String) (template : String) :
    Contacts.detail s pk slug1 template = Contacts.detail s pk slug2 template := rfl

/-- C4: a POST to the create view with permission whose form does not
validate returns the `HttpResponseServerError` class itself (the broken
response path of line 81), not a re-rendered form, and leaves the store
unchanged. -/
theorem C4_create_invalid_server_error_class (s : Contacts.Store)
    (req : Contacts.Request) (template : String)
    (hm : req.method = .POST)
    (hp : Contacts.hasPerm req "contacts.add_company" = true)
    (hv : Contacts.companyFormClean req.post = none) :
    Contacts.create s req template = ⟨s, [], .ok .serverErrorClass⟩ := by
  unfold Contacts.create
  rw [hp, hm, hv]
  rfl

/-- Witness for C4 at a concrete store and request (empty name field). -/
theorem C4_create_invalid_server_error_class_witness :
    Contacts.create s0 (reqAllPerms .POST [("name", "")]) "t" =
      ⟨s0, [], .ok .serverErrorClass⟩ :=
  C4_create_invalid_server_error_class s0 (reqAllPerms .POST [("name", "")]) "t"
    rfl (by decide) (by decide)

/-- C5: for a primary key absent from the store, the detail view and
(given the required permission) the update and delete views all end in
the not-found outcome — never a server error — and leave the store
unchanged. -/
theorem C5_missing_pk_not_found (s : Contacts.Store) (req : Contacts.Request)
    (pk : Nat) (slug : Option String) (template : String)
    (habs : Contacts.findCompany s pk = none) :
    Contacts.detail s pk slug template = ⟨s, [], .http404⟩ ∧
    (Contacts.hasPerm req "contacts.change_company" = true →
      Contacts.update s req pk slug template = ⟨s, [], .http404⟩) ∧
    (Contacts.hasPerm req "contacts.delete_company" = true →
      Contacts.delete s req pk slug template = ⟨s, [], .http404⟩) := by
  refine ⟨?_, fun hp => ?_, fun hp => ?_⟩
  · unfold Contacts.detail
    rw [habs]
  · unfold Contacts.update
    rw [hp, habs]
    rfl
  · unfold Contacts.delete
    rw [hp, habs]
    rfl

/-- Witness for C5 at a concrete store and absent pk 99. -/
theorem C5_missing_pk_not_found_witness :
    Contacts.detail s0 99 none "t" = ⟨s0, [], .http404⟩ ∧
    Contacts.update s0 (reqAllPerms .POST postAll) 99 none "t" = ⟨s0, [], .http404⟩ ∧
    Contacts.delete s0 (reqAllPerms .POST postAll) 99 none "t" = ⟨s0, [], .http404⟩ := by
  have h := C5_missing_pk_not_found s0 (reqAllPerms .POST postAll) 99 none "t" (by decide)
  exact ⟨h.1, h.2.1 (by decide), h.2.2 (by decide)⟩

/-- C6: a request lacking the corresponding permission makes the create,
update and delete views return forbidden at once: the store is unchanged
and no notification is emitted. -/
theorem C6_no_permission_forbidden (s : Contacts.Store) (req : Contacts.Request)
    (pk : Nat) (slug : Option String) (template : String) :
    (Contacts.hasPerm req "contacts.add_company" = false →
      Contacts.create s req template = ⟨s, [], .ok .forbidden⟩) ∧
    (Contacts.hasPerm req "contacts.change_company" = false →
      Contacts.update s req pk slug template = ⟨s, [], .ok .forbidden⟩) ∧
    (Contacts.hasPerm req "contacts.delete_company" = false →
      Contacts.delete s req pk slug template = ⟨s, [], .ok .forbidden⟩) := by
  refine ⟨fun hp => ?_, fun hp => ?_, fun hp => ?_⟩
  · unfold Contacts.create
    rw [hp]
    rfl
  · unfold Contacts.update
    rw [hp]
    rfl
  · unfold Contacts.delete
    rw [hp]
    rfl

/-- Witness for C6 at a concrete store and a request with no permissions. -/
theorem C6_no_permission_forbidden_witness :
    Contacts.create s0 reqNoPerms "t" = ⟨s0, [], .ok .forbidden⟩ ∧
    Contacts.update s0 reqNoPerms 1 none "t" = ⟨s0, [], .ok .forbidden⟩ ∧
    Contacts.delete s0 reqNoPerms 1 none "t" = ⟨s0, [], .ok .forbidden⟩ := by
  have h := C6_no_permission_forbidden s0 reqNoPerms 1 none "t"
  exact ⟨h.1 (by decide), h.2.1 (by decide), h.2.2 (by decide)⟩

/-- C7: a POST to the create view with permission and a valid form adds
exactly one new company (at the fresh primary key), emits the success
notification, and redirects to that record's canonical URL. -/
theorem C7_create_valid_adds_one (s : Contacts.Store) (req : Contacts.Request)
    (template : String) (nm : String)
    (hm : req.method = .POST)
    (hp : Contacts.hasPerm req "contacts.add_company" = true)
    (hv : Contacts.companyFormClean req.post = some nm) :
    Contacts.create s req template =
      ⟨{ s with nextPk := s.nextPk + 1,
                companies := s.companies ++ [⟨s.nextPk, nm⟩] },
       ["Company added"],
       .ok (.redirect (Contacts.get_absolute_url ⟨s.nextPk, nm⟩))⟩ ∧
    (Contacts.create s req template).store.companies.length =
      s.companies.length + 1 := by
  have h : Contacts.create s req template =
      ⟨{ s with nextPk := s.nextPk + 1,
                companies := s.companies ++ [⟨s.nextPk, nm⟩] },
       ["Company added"],
       .ok (.redirect (Contacts.get_absolute_url ⟨s.nextPk, nm⟩))⟩ := by
    unfold Contacts.create
    rw [hp, hm, hv]
    rfl
  refine ⟨h, ?_⟩
  rw [h]
  simp

/-- Witness for C7 at a concrete store and valid creation request. -/
theorem C7_create_valid_adds_one_witness :
    Contacts.create s0 (reqAllPerms .POST postAll) "t" =
      ⟨{ s0 with nextPk := s0.nextPk + 1,
                 companies := s0.companies ++ [⟨s0.nextPk, "Acme Inc"⟩] },
       ["Company added"],
       .ok (.redirect (Contacts.get_absolute_url ⟨s0.nextPk, "Acme Inc"⟩))⟩ :=
  (C7_create_valid_adds_one s0 (reqAllPerms .POST postAll) "t" "Acme Inc"
    rfl (by decide) (by decide)).1

/-- C10: a POST to the delete view with permission and an existing pk
whose body has no `delete_company` key ends in a raised key-lookup
error, not a response: the direct indexing of line 162 is not total. -/
theorem C10_delete_missing_key_raises (s : Contacts.Store)
    (req : Contacts.Request) (pk : Nat) (slug : Option String)
    (template : String) (c : Contacts.Company)
    (hm : req.method = .POST)
    (hp : Contacts.hasPerm req "contacts.delete_company" = true)
    (hc : Contacts.findCompany s pk = some c)
    (hk : Contacts.postGet req.post "delete_company" = none) :
    Contacts.delete s req pk slug template =
      ⟨s, [], .keyError "delete_company"⟩ := by
  unfold Contacts.delete
  rw [hp, hc, hm, hk]
  rfl

/-- Witness for C10: a confirmation POST without the `delete_company`
field against the concrete store. -/
theorem C10_delete_missing_key_raises_witness :
    Contacts.delete s0 (reqAllPerms .POST [("other", "x")]) 1 none "t" =
      ⟨s0, [], .keyError "delete_company"⟩ :=
  C10_delete_missing_key_raises s0 (reqAllPerms .POST [("other", "x")]) 1 none "t"
    ⟨1, "Acme"⟩ rfl (by decide) (by decide) (by decide)

/-- C1: on a POST to the update view with permission and an existing pk,
if the main form and all four formsets validate then all five saves are
applied in sequence, the success notification is emitted and the view
redirects to the record's canonical URL; if any of the five fails to
validate, the store (the company and all its sub-records) is unchanged,
no notification is emitted, and the bound forms are re-rendered. -/
theorem C1_update_all_or_nothing (s : Contacts.Store) (req : Contacts.Request)
    (pk : Nat) (slug : Option String) (template : String) (c : Contacts.Company)
    (hm : req.method = .POST)
    (hp : Contacts.hasPerm req "contacts.change_company" = true)
    (hc : Contacts.findCompany s pk = some c) :
    (∀ nm ph em ws ad,
      Contacts.companyFormClean req.post = some nm →
      Contacts.formsetClean req.post "phone" = some ph →
      Contacts.formsetClean req.post "email" = some em →
      Contacts.formsetClean req.post "website" = some ws →
      Contacts.formsetClean req.post "address" = some ad →
      Contacts.update s req pk slug template =
        ⟨Contacts.addressFormsetSave
           (Contacts.websiteFormsetSave
             (Contacts.emailFormsetSave
               (Contacts.phoneFormsetSave (Contacts.companyFormSave s pk nm) pk ph)
               pk em)
             pk ws)
           pk ad,
         ["Company updated"],
         .ok (.redirect (Contacts.get_absolute_url c))⟩) ∧
    ((Contacts.companyFormClean req.post = none ∨
      Contacts.formsetClean req.post "phone" = none ∨
      Contacts.formsetClean req.post "email" = none ∨
      Contacts.formsetClean req.post "website" = none ∨
      Contacts.formsetClean req.post "address" = none) →
      Contacts.update s req pk slug template =
        ⟨s, [], .ok (.render template (.updateForms c.pk))⟩) := by
  constructor
  · intro nm ph em ws ad h1 h2 h3 h4 h5
    unfold Contacts.update
    rw [hp, hc, hm, h1, h2, h3, h4, h5]
    rfl
  · intro hbad
    unfold Contacts.update
    rw [hp, hc, hm]
    cases e1 : Contacts.companyFormClean req.post <;>
      cases e2 : Contacts.formsetClean req.post "phone" <;>
      cases e3 : Contacts.formsetClean req.post "email" <;>
      cases e4 : Contacts.formsetClean req.post "website" <;>
      cases e5 : Contacts.formsetClean req.post "address" <;>
      simp_all

/-- Witness for C1: against the concrete store, a fully valid
submission saves all five records, and the same submission with the
address formset data missing leaves the store untouched. -/
theorem C1_update_all_or_nothing_witness :
    Contacts.update s0 (reqAllPerms .POST postAll) 1 none "t" =
      ⟨Contacts.addressFormsetSave
         (Contacts.websiteFormsetSave
           (Contacts.emailFormsetSave
             (Contacts.phoneFormsetSave
               (Contacts.companyFormSave s0 1 "Acme Inc") 1 "556")
             1 "c@d.example")
           1 "acme2.example")
         1 "2 Main St",
       ["Company updated"],
       .ok (.redirect (Contacts.get_absolute_url ⟨1, "Acme"⟩))⟩ ∧
    Contacts.update s0 (reqAllPerms .POST postNoAddr) 1 none "t" =
      ⟨s0, [], .ok (.render "t" (.updateForms 1))⟩ :=
  ⟨(C1_update_all_or_nothing s0 (reqAllPerms .POST postAll) 1 none "t" ⟨1, "Acme"⟩
      rfl (by decide) (by decide)).1
      "Acme Inc" "556" "c@d.example" "acme2.example" "2 Main St"
      (by decide) (by decide) (by decide) (by decide) (by decide),
   (C1_update_all_or_nothing s0 (reqAllPerms .POST postNoAddr) 1 none "t" ⟨1, "Acme"⟩
      rfl (by decide) (by decide)).2
      (Or.inr (Or.inr (Or.inr (Or.inr (by decide)))))⟩

/-- C2: on a POST to the delete view with permission and an existing pk
whose body carries the `delete_company` field, the record is deleted
exactly when that field equals `"Yes"` (with cascade, success
notification and a redirect to the list view); any other value leaves
the store unchanged and redirects to the record's detail URL. -/
theorem C2_delete_requires_yes (s : Contacts.Store) (req : Contacts.Request)
    (pk : Nat) (slug : Option String) (template : String) (c : Contacts.Company)
    (v : String)
    (hm : req.method = .POST)
    (hp : Contacts.hasPerm req "contacts.delete_company" = true)
    (hc : Contacts.findCompany s pk = some c)
    (hk : Contacts.postGet req.post "delete_company" = some v) :
    (Contacts.findCompany (Contacts.delete s req pk slug template).store pk = none
      ↔ v = "Yes") ∧
    (v = "Yes" →
      Contacts.delete s req pk slug template =
        ⟨Contacts.deleteCompany s pk, ["Company deleted"],
         .ok (.redirect Contacts.company_list_url)⟩) ∧
    (v ≠ "Yes" →
      Contacts.delete s req pk slug template =
        ⟨s, [], .ok (.redirect (Contacts.get_absolute_url c))⟩) := by
  have hview : Contacts.delete s req pk slug template =
      if v = "Yes" then
        ⟨Contacts.deleteCompany s pk, ["Company deleted"],
         .ok (.redirect Contacts.company_list_url)⟩
      else ⟨s, [], .ok (.redirect (Contacts.get_absolute_url c))⟩ := by
    unfold Contacts.delete
    rw [hp, hc, hm, hk]
    rfl
  by_cases hv : v = "Yes"
  · rw [hview, if_pos hv]
    exact ⟨⟨fun _ => hv, fun _ => findCompany_deleteCompany s pk⟩,
           fun _ => rfl, fun hne => absurd hv hne⟩
  · rw [hview, if_neg hv]
    exact ⟨⟨fun habs => absurd habs (findCompany_mem s pk c hc),
            fun hyes => absurd hyes hv⟩,
           fun hyes => absurd hyes hv, fun _ => rfl⟩

/-- Witness for C2: a confirmed deletion removes the concrete company
and redirects to the list; the value `"no"` leaves the store unchanged
and redirects to the record's detail URL. -/
theorem C2_delete_requires_yes_witness :
    Contacts.delete s0 (reqAllPerms .POST [("delete_company", "Yes")]) 1 none "t" =
      ⟨Contacts.deleteCompany s0 1, ["Company deleted"],
       .ok (.redirect Contacts.company_list_url)⟩ ∧
    Contacts.delete s0 (reqAllPerms .POST [("delete_company", "no")]) 1 none "t" =
      ⟨s0, [], .ok (.redirect (Contacts.get_absolute_url ⟨1, "Acme"⟩))⟩ :=
  ⟨(C2_delete_requires_yes s0 (reqAllPerms .POST [("delete_company", "Yes")]) 1
      none "t" ⟨1, "Acme"⟩ "Yes" rfl (by decide) (by decide) (by decide)).2.1 rfl,
   (C2_delete_requires_yes s0 (reqAllPerms .POST [("delete_company", "no")]) 1
      none "t" ⟨1, "Acme"⟩ "no" rfl (by decide) (by decide) (by decide)).2.2
      (by decide)⟩

/-- C3: for every page argument that is non-positive, beyond the last
page, or not an integer (i.e. rejected by `validate_number`), the list
view behaves exactly as if the last page had been requested — it returns
the last page's records and no error escapes. -/
theorem C3_list_invalid_page_falls_back (s : Contacts.Store) (page : Option Int)
    (template : String)
    (hinv : Contacts.validate_number s.companies.length page = none) :
    Contacts.list s page template =
      Contacts.list s (some ((Contacts.num_pages s.companies.length : Nat) : Int))
        template ∧
    (Contacts.list_ctx s.companies page).object_list =
      Contacts.pageObjects s.companies (Contacts.num_pages s.companies.length) := by
  have h1 : Contacts.list_ctx s.companies page =
      Contacts.buildListCtx s.companies (Contacts.num_pages s.companies.length) := by
    unfold Contacts.list_ctx
    rw [hinv]
  have h2 : Contacts.list_ctx s.companies
      (some ((Contacts.num_pages s.companies.length : Nat) : Int)) =
      Contacts.buildListCtx s.companies (Contacts.num_pages s.companies.length) :=
    list_ctx_valid_eq s.companies (Contacts.num_pages s.companies.length)
      (num_pages_pos s.companies.length) (le_refl _)
  constructor
  · unfold Contacts.list
    rw [h1, h2]
  · rw [h1]
    rfl

/-- Witness for C3: against the concrete one-company store, page 0, page
7 and a non-integer page all yield the single (last) page's records. -/
theorem C3_list_invalid_page_falls_back_witness :
    Contacts.list s0 (some 0) "t" = Contacts.list s0 (some 1) "t" ∧
    (Contacts.list_ctx s0.companies (some 7)).object_list =
      Contacts.pageObjects s0.companies 1 ∧
    (Contacts.list_ctx s0.companies none).object_list =
      Contacts.pageObjects s0.companies 1 :=
  ⟨(C3_list_invalid_page_falls_back s0 (some 0) "t" (by decide)).1,
   (C3_list_invalid_page_falls_back s0 (some 7) "t" (by decide)).2,
   (C3_list_invalid_page_falls_back s0 none "t" (by decide)).2⟩

/-- C8: for every valid page number `n`, the list view's template
context shows exactly the records between `start_index` and `end_index`
(1-based, inclusive), `has_next`/`has_previous` match the page's
position, and the previous/next page numbers are `none` exactly when the
neighbouring page does not exist. -/
theorem C8_list_ctx_pagination_correct (l : List Contacts.Company) (n : Nat)
    (h1 : 1 ≤ n) (h2 : n ≤ Contacts.num_pages l.length) :
    (Contacts.list_ctx l (some (n : Int))).object_list =
      (l.drop ((Contacts.list_ctx l (some (n : Int))).start_index - 1)).take
        ((Contacts.list_ctx l (some (n : Int))).end_index + 1 -
          (Contacts.list_ctx l (some (n : Int))).start_index) ∧
    ((Contacts.list_ctx l (some (n : Int))).has_next = true ↔
      n < Contacts.num_pages l.length) ∧
    ((Contacts.list_ctx l (some (n : Int))).has_previous = true ↔ 1 < n) ∧
    ((Contacts.list_ctx l (some (n : Int))).previous_page_number =
      if 1 < n then some (n - 1) else none) ∧
    ((Contacts.list_ctx l (some (n : Int))).next_page_number =
      if n < Contacts.num_pages l.length then some (n + 1) else none) := by
  rw [list_ctx_valid_eq l n h1 h2]
  unfold Contacts.buildListCtx
  refine ⟨?_, ?_, ?_, ?_, ?_⟩
  · show Contacts.pageObjects l n =
      (l.drop (Contacts.page_start_index l.length n - 1)).take
        (Contacts.page_end_index l.length n + 1 -
          Contacts.page_start_index l.length n)
    unfold Contacts.pageObjects Contacts.page_start_index Contacts.page_end_index
    by_cases h0 : l.length = 0
    · have hl : l = [] := List.length_eq_zero.mp h0
      subst hl
      simp
    · rw [if_neg h0]
      by_cases hlast : n = Contacts.num_pages l.length
      · rw [if_pos hlast]
        have e1 : (n - 1) * Contacts.per_page + 1 - 1 = (n - 1) * Contacts.per_page := by
          omega
        have e2 : l.length + 1 - ((n - 1) * Contacts.per_page + 1) =
            l.length - (n - 1) * Contacts.per_page := by
          omega
        rw [e1, e2]
        have hlen : (l.drop ((n - 1) * Contacts.per_page)).length =
            l.length - (n - 1) * Contacts.per_page := List.length_drop _ _
        have hbound := count_le_mul_num_pages l.length
        have hpp : Contacts.per_page = 20 := rfl
        have h20 : (l.drop ((n - 1) * Contacts.per_page)).length ≤ Contacts.per_page := by
          rw [hlen, hpp]
          rw [hpp] at *
          omega
        rw [List.take_of_length_le h20, ← hlen, List.take_length]
      · rw [if_neg hlast]
        have hlt : n < Contacts.num_pages l.length := lt_of_le_of_ne h2 hlast
        have e1 : (n - 1) * Contacts.per_page + 1 - 1 = (n - 1) * Contacts.per_page := by
          omega
        have e2 : n * Contacts.per_page + 1 - ((n - 1) * Contacts.per_page + 1) =
            Contacts.per_page := by
          have hpp : Contacts.per_page = 20 := rfl
          rw [hpp]
          omega
        rw [e1, e2]
  · show Contacts.page_has_next l.length n = true ↔ n < Contacts.num_pages l.length
    unfold Contacts.page_has_next
    exact decide_eq_true_iff
  · show Contacts.page_has_previous n = true ↔ 1 < n
    unfold Contacts.page_has_previous
    exact decide_eq_true_iff
  · show Contacts.previous_page_number l.length n =
      if 1 < n then some (n - 1) else none
    unfold Contacts.previous_page_number
    by_cases hgt : 1 < n
    · rw [if_pos ⟨by omega, by omega⟩, if_pos hgt]
    · rw [if_neg (by omega), if_neg hgt]
  · show Contacts.next_page_number l.length n =
      if n < Contacts.num_pages l.length then some (n + 1) else none
    unfold Contacts.next_page_number
    by_cases hlt : n < Contacts.num_pages l.length
    · rw [if_pos (by omega), if_pos hlt]
    · rw [if_neg (by omega), if_neg hlt]

/-- Witness for C8: page 2 of a concrete 25-company list shows records
21-25, has a previous but no next page, and the page-number links are
`some 1` and `none`. -/
theorem C8_list_ctx_pagination_correct_witness :
    ((Contacts.list_ctx c25 (some (2 : Nat))).has_next = true ↔
      2 < Contacts.num_pages c25.length) ∧
    ((Contacts.list_ctx c25 (some (2 : Nat))).has_previous = true ↔ 1 < 2) ∧
    (Contacts.list_ctx c25 (some (2 : Nat))).object_list =
      (c25.drop ((Contacts.list_ctx c25 (some (2 : Nat))).start_index - 1)).take
        ((Contacts.list_ctx c25 (some (2 : Nat))).end_index + 1 -
          (Contacts.list_ctx c25 (some (2 : Nat))).start_index) := by
  have h := C8_list_ctx_pagination_correct c25 2 (by omega) (by decide)
  exact ⟨h.2.1, h.2.2.1, h.1⟩
